import Mathlib

/-!
Verification of `src/imitation/policies/replay_buffer_wrapper.py`: the
reward-relabeling replay-buffer wrappers `ReplayBufferRewardWrapper` and
`ReplayBufferEntropyRewardWrapper`.

Modelling conventions (shallow embedding):
* Observations, actions and rewards are rationals; the spec's scenarios use a
  1-D observation space and the code is single-environment (`n_envs = 1`,
  see the `TODO support n_envs > 1` comments), so each array slot holds one
  scalar per field.
* The pre-allocated storage arrays are lists of fixed length (the capacity).
* The underlying storage's random index draw is passed in explicitly as a
  list of indices `idx`; the storage's own sampling policy only guarantees
  indices over the occupied range, so validity is checked against the
  occupied size exactly as `BaseBuffer.sample` bounds its draw.
* Exceptions are modelled with `Except String` / `Option`: a Python call that
  raises corresponds to `Except.error` / `none`, and the mutations performed
  before the raise are kept (Python state survives an exception).
* `imitation.util.util` is code of this repository that is not under `src/`;
  the helpers the wrapper calls from it (`compute_state_entropy`,
  `RunningMeanAndVar`, `safe_to_tensor`) are modelled from the spec where
  noted. `safe_to_tensor` is an identity conversion and is dropped; tensor
  `reshape` to the original reward shape is modelled as a length check
  (element counts must agree, as `torch.reshape` requires).
-/

namespace ReplayBufferSpec

/-- A batch of transitions, mirroring stable-baselines3 `ReplayBufferSamples`
`(observations, actions, next_observations, dones, rewards)`. -/
structure ReplayBufferSamples where
  observations : List ℚ
  actions : List ℚ
  next_observations : List ℚ
  dones : List Bool
  rewards : List ℚ
  deriving DecidableEq

/-- Modelled from the spec: the external storage collaborator
(stable-baselines3 `ReplayBuffer`). Per the spec's data model it is
pre-allocated circular storage of capacity C with a write cursor `pos`
(next write index, wraps modulo C) and a `full` flag set once the cursor
has wrapped; the occupied range is `[0, pos)` if not full, else `[0, C)`. -/
structure ReplayBuffer where
  capacity : ℕ
  observations : List ℚ
  next_observations : List ℚ
  actions : List ℚ
  rewards : List ℚ
  dones : List Bool
  pos : ℕ
  full : Bool
  deriving DecidableEq

/-- Freshly-constructed storage: zero-filled arrays, `pos = 0`, not full. -/
def ReplayBuffer.mk0 (capacity : ℕ) : ReplayBuffer where
  capacity := capacity
  observations := List.replicate capacity 0
  next_observations := List.replicate capacity 0
  actions := List.replicate capacity 0
  rewards := List.replicate capacity 0
  dones := List.replicate capacity false
  pos := 0
  full := false

/-- Number of occupied slots. -/
def ReplayBuffer.size (b : ReplayBuffer) : ℕ :=
  if b.full then b.capacity else b.pos

/-- The spec's notion of the currently-occupied observations of the storage:
the `[0, pos)` segment of the observation array if not full, else the whole
array. -/
def ReplayBuffer.occupiedObservations (b : ReplayBuffer) : List ℚ :=
  if b.full then b.observations else b.observations.take b.pos

/-- The storage's `add`: write one transition at the cursor, advance the
cursor, wrapping to 0 and setting `full` when it reaches the capacity. -/
def ReplayBuffer.add (b : ReplayBuffer) (obs next_obs action reward : ℚ)
    (done : Bool) : ReplayBuffer :=
  let b' : ReplayBuffer :=
    { b with
      observations := b.observations.set b.pos obs
      next_observations := b.next_observations.set b.pos next_obs
      actions := b.actions.set b.pos action
      rewards := b.rewards.set b.pos reward
      dones := b.dones.set b.pos done }
  if b.pos + 1 = b.capacity then { b' with pos := 0, full := true }
  else { b' with pos := b.pos + 1 }

/-- The storage's `sample` given the index draw `idx`. `BaseBuffer.sample`
draws its indices uniformly in `[0, size)`; drawing from an empty buffer
raises (`np.random.randint(0, 0)`), modelled as `none`. -/
def ReplayBuffer.sample (b : ReplayBuffer) (idx : List ℕ) :
    Option ReplayBufferSamples :=
  if b.size = 0 then none
  else if idx.all (fun i => i < b.size) then
    some
      { observations := idx.map (fun i => b.observations.getD i 0)
        actions := idx.map (fun i => b.actions.getD i 0)
        next_observations := idx.map (fun i => b.next_observations.getD i 0)
        dones := idx.map (fun i => b.dones.getD i false)
        rewards := idx.map (fun i => b.rewards.getD i 0) }
  else none

/-- The injected reward function: maps the named batches
`(state, action, next_state, done)` to a reward batch. -/
def RewardFn : Type :=
  List ℚ → List ℚ → List ℚ → List Bool → List ℚ

/-- Observation-space descriptors; the constructor only inspects whether the
space is dictionary-structured (`isinstance(observation_space, spaces.Dict)`). -/
inductive Space
  | box
  | discrete
  | dict
  deriving DecidableEq

/-- Whether the space is a `spaces.Dict`. -/
def Space.isDict : Space → Bool
  | .dict => true
  | _ => false

/-- Python classes that can be passed as `replay_buffer_class`. The
constructor's check `replay_buffer_class is ReplayBuffer` is an object
identity test, so the distinction that matters is: the `ReplayBuffer` class
itself, a strict subclass of it, or an unrelated class. -/
inductive BufferClass
  | replayBuffer
  | strictSubclassOfReplayBuffer
  | unrelatedClass
  deriving DecidableEq

/-- Whether the class provides the storage interface
(`add`, `sample`, mutable `pos`/`full`): a strict subclass of `ReplayBuffer`
inherits all of it. -/
def BufferClass.providesStorageInterface : BufferClass → Bool
  | .replayBuffer => true
  | .strictSubclassOfReplayBuffer => true
  | .unrelatedClass => false

/-- The class `ReplayBufferRewardWrapper`: holds the internally-constructed delegate
`replay_buffer` and the injected `reward_fn`. Because the Python class also
runs `ReplayBuffer.__init__` on itself (line 63), the wrapper object carries
its own inherited, zero-initialised storage arrays; `observations` is that
own array, which `add` never writes (line 101 only writes the delegate).
`pos` and `full` are properties proxying the delegate, so the wrapper keeps
no fields of its own for them. -/
structure ReplayBufferRewardWrapper where
  replay_buffer : ReplayBuffer
  reward_fn : RewardFn
  observations : List ℚ

namespace ReplayBufferRewardWrapper

/-- The constructor `ReplayBufferRewardWrapper.__init__` (lines 29–63): asserts
`replay_buffer_class is ReplayBuffer` (line 53), then asserts the observation
space is not a `spaces.Dict` (line 54), then constructs the delegate and runs
the inherited constructor on itself (allocating the wrapper's own
zero-filled arrays). An `AssertionError` is modelled as `Except.error`. -/
def init (buffer_size : ℕ) (observation_space : Space)
    (replay_buffer_class : BufferClass) (reward_fn : RewardFn) :
    Except String ReplayBufferRewardWrapper :=
  if replay_buffer_class = BufferClass.replayBuffer then
    if observation_space.isDict then
      Except.error "AssertionError: observation_space is a spaces.Dict"
    else
      Except.ok
        { replay_buffer := ReplayBuffer.mk0 buffer_size
          reward_fn := reward_fn
          observations := List.replicate buffer_size 0 }
  else Except.error "AssertionError: only ReplayBuffer is supported"

/-- The `pos` property getter (lines 69–71): reads the delegate's cursor. -/
def pos (w : ReplayBufferRewardWrapper) : ℕ :=
  w.replay_buffer.pos

/-- The `pos` property setter (lines 73–75): writes the delegate's cursor. -/
def setPos (w : ReplayBufferRewardWrapper) (p : ℕ) : ReplayBufferRewardWrapper :=
  { w with replay_buffer := { w.replay_buffer with pos := p } }

/-- The `full` property getter (lines 77–79). -/
def full (w : ReplayBufferRewardWrapper) : Bool :=
  w.replay_buffer.full

/-- The `full` property setter (lines 81–83). -/
def setFull (w : ReplayBufferRewardWrapper) (f : Bool) : ReplayBufferRewardWrapper :=
  { w with replay_buffer := { w.replay_buffer with full := f } }

/-- The wrapper's `add` (lines 100–101): pure pass-through to the delegate; the wrapper's
own inherited arrays are untouched. -/
def add (w : ReplayBufferRewardWrapper) (obs next_obs action reward : ℚ)
    (done : Bool) : ReplayBufferRewardWrapper :=
  { w with replay_buffer := w.replay_buffer.add obs next_obs action reward done }

/-- The wrapper's `sample` (lines 85–98): draw from the delegate, then replace the reward
field with `reward_fn(state, action, next_state, done)` reshaped to the shape
of the delegate batch's reward field (`reshape` requires equal element
counts; a mismatch raises, modelled as `none`). -/
def sample (w : ReplayBufferRewardWrapper) (idx : List ℕ) :
    Option ReplayBufferSamples :=
  match w.replay_buffer.sample idx with
  | none => none
  | some samples =>
    let rewards := w.reward_fn samples.observations samples.actions
      samples.next_observations samples.dones
    if rewards.length = samples.rewards.length then
      some
        { observations := samples.observations
          actions := samples.actions
          next_observations := samples.next_observations
          dones := samples.dones
          rewards := rewards }
    else none

/-- The method `_get_samples` (lines 103–107): unconditionally raises
`NotImplementedError`. -/
def _get_samples (_w : ReplayBufferRewardWrapper) :
    Except String ReplayBufferSamples :=
  Except.error
    "_get_samples() is intentionally not implemented.This method should not be called."

end ReplayBufferRewardWrapper

/-- Modelled from the spec: `util.RunningMeanAndVar` (`imitation.util.util`
is not under `src/`). Per the spec it "incrementally tracks mean and standard
deviation of a scalar stream"; the model keeps the count, sum and sum of
squares of every value it has been updated with, from which the running mean
and (population) variance are computed. -/
structure RunningMeanAndVar where
  count : ℕ
  total : ℚ
  totalSq : ℚ
  deriving DecidableEq

namespace RunningMeanAndVar

/-- The accumulator created at wrapper construction: empty stream. -/
def mk0 : RunningMeanAndVar :=
  { count := 0, total := 0, totalSq := 0 }

/-- The accumulator's `update(batch)`: fold the batch's values into the stream statistics. -/
def update (s : RunningMeanAndVar) (batch : List ℚ) : RunningMeanAndVar :=
  { count := s.count + batch.length
    total := s.total + batch.sum
    totalSq := s.totalSq + (batch.map (fun x => x ^ 2)).sum }

/-- Running mean of the stream (`0` for the empty stream, `q / 0 = 0`). -/
def mean (s : RunningMeanAndVar) : ℚ :=
  s.total / (s.count : ℚ)

/-- Running variance of the stream. The standard deviation is its square
root, which is irrational in general; functions that divide by it take the
square-root function as an explicit parameter `sq` (any function agreeing
with the real square root on the values that arise; concrete instantiations
use `Rat.sqrt`, which is exact on perfect squares and at `0`). -/
def var (s : RunningMeanAndVar) : ℚ :=
  s.totalSq / (s.count : ℚ) - s.mean ^ 2

/-- The statistics of a whole stream given as a list. -/
def ofList (l : List ℚ) : RunningMeanAndVar :=
  mk0.update l

end RunningMeanAndVar

/-- Modelled from the spec: the distance of `x` to its k-th nearest
neighbour in `pool` — the k-th smallest entry of the list of distances from
`x` to the pool's members (1-D observations, so the distance is `|x - y|`).
Defaults to `0` when the pool has fewer than `k` entries (the claims never
exercise that case). -/
def kthNearestNeighborDist (k : ℕ) (x : ℚ) (pool : List ℚ) : ℚ :=
  (List.insertionSort (· ≤ ·) (pool.map (fun y => |x - y|))).getD (k - 1) 0

/-- Modelled from the spec: `util.compute_state_entropy` — for each
observation of the batch, the distance to its k-th nearest neighbour among
the pool `all_obs`, used as a raw entropy estimate. -/
def compute_state_entropy (obs : List ℚ) (all_obs : List ℚ) (k : ℕ) : List ℚ :=
  obs.map (fun x => kthNearestNeighborDist k x all_obs)

/-- The class `ReplayBufferEntropyRewardWrapper` (lines 110–152): the base wrapper
plus the warmup sample counter, the neighbour count `k`, the running
statistics accumulator and the warmup budget `entropy_as_reward_samples`. -/
structure ReplayBufferEntropyRewardWrapper where
  base : ReplayBufferRewardWrapper
  sample_count : ℕ
  k : ℕ
  entropy_stats : RunningMeanAndVar
  entropy_as_reward_samples : ℕ

namespace ReplayBufferEntropyRewardWrapper

/-- The constructor `ReplayBufferEntropyRewardWrapper.__init__` (lines 113–152): runs the
base constructor (same assertions), then initialises `sample_count = 0`, the
given `k` (default 5) and warmup budget, and a fresh accumulator. -/
def init (buffer_size : ℕ) (observation_space : Space)
    (replay_buffer_class : BufferClass) (reward_fn : RewardFn)
    (entropy_as_reward_samples : ℕ) (k : ℕ := 5) :
    Except String ReplayBufferEntropyRewardWrapper :=
  match ReplayBufferRewardWrapper.init buffer_size observation_space
      replay_buffer_class reward_fn with
  | Except.error e => Except.error e
  | Except.ok base =>
    Except.ok
      { base := base
        sample_count := 0
        k := k
        entropy_stats := RunningMeanAndVar.mk0
        entropy_as_reward_samples := entropy_as_reward_samples }

/-- The entropy wrapper's `add`, inherited from the base wrapper: pass-through to the delegate. -/
def add (w : ReplayBufferEntropyRewardWrapper) (obs next_obs action reward : ℚ)
    (done : Bool) : ReplayBufferEntropyRewardWrapper :=
  { w with base := w.base.add obs next_obs action reward done }

/-- The observation pool the warmup branch builds (lines 165–168):
`self.observations` sliced by `self.pos` — that is, the wrapper's OWN
inherited observation array (`w.base.observations`), with `full` and `pos`
read through the delegating property accessors. -/
def entropyPool (w : ReplayBufferEntropyRewardWrapper) : List ℚ :=
  if w.base.full then w.base.observations
  else w.base.observations.take w.base.pos

/-- The raw entropy estimates for a drawn batch (lines 169–174):
`compute_state_entropy(samples.observations, all_obs, k)`. -/
def rawEntropies (w : ReplayBufferEntropyRewardWrapper)
    (samples : ReplayBufferSamples) : List ℚ :=
  compute_state_entropy samples.observations w.entropyPool w.k

/-- The normalization step (lines 178–179): subtract the accumulator's mean
and divide by its standard deviation `sq stats.var`. -/
def normalizeWith (sq : ℚ → ℚ) (stats : RunningMeanAndVar) (es : List ℚ) :
    List ℚ :=
  es.map (fun e => (e - stats.mean) / sq stats.var)

/-- The entropy wrapper's `sample` (lines 154–193): increment the sample counter, delegate to the
base wrapper's `sample`, return its batch unchanged once the counter exceeds
the warmup budget; otherwise compute the raw entropies over the warmup pool,
update the accumulator with them, normalize by the post-update statistics
and return the batch with the reward field replaced by the normalized
entropies (reshaped to the reward field's shape). Returns the updated
wrapper state together with the result; a raising delegate call leaves the
already-incremented counter in place. -/
def sample (w : ReplayBufferEntropyRewardWrapper) (sq : ℚ → ℚ)
    (idx : List ℕ) :
    ReplayBufferEntropyRewardWrapper × Option ReplayBufferSamples :=
  -- `self.sample_count += 1` runs first (line 155); the code after it reads
  -- only fields the increment does not touch, so they are read from `w`.
  let count := w.sample_count + 1
  match w.base.sample idx with
  | none => ({ w with sample_count := count }, none)
  | some samples =>
    if count > w.entropy_as_reward_samples then
      ({ w with sample_count := count }, some samples)
    else
      let entropies := w.rawEntropies samples
      let stats := w.entropy_stats.update entropies
      let normalized := normalizeWith sq stats entropies
      if normalized.length = samples.rewards.length then
        ({ w with sample_count := count, entropy_stats := stats },
          some
            { observations := samples.observations
              actions := samples.actions
              next_observations := samples.next_observations
              dones := samples.dones
              rewards := normalized })
      else ({ w with sample_count := count, entropy_stats := stats }, none)

end ReplayBufferEntropyRewardWrapper

/-! ### A concrete scenario, used by the witnesses and counterexamples

Capacity 10, 1-D observation space, reward function `state + 1`; five
transitions added with observations `1, 2, 3, 4, 5` (next observations
`2, 3, 4, 5, 6`), so the buffer is never filled. For the entropy wrapper the
warmup budget is `N = 3` with the default `k = 5`. -/

/-- A concrete reward function: `reward = state + 1`, elementwise. -/
def rfInc : RewardFn := fun s _ _ _ => s.map (fun x => x + 1)

/-- The freshly-constructed base wrapper of the scenario. -/
def demoWrapper0 : ReplayBufferRewardWrapper where
  replay_buffer := ReplayBuffer.mk0 10
  reward_fn := rfInc
  observations := List.replicate 10 0

/-- The base wrapper after the five `add` calls. -/
def demoWrapper : ReplayBufferRewardWrapper :=
  ((((demoWrapper0.add 1 2 0 0 false).add 2 3 0 0 false).add 3 4 0 0
    false).add 4 5 0 0 false).add 5 6 0 0 false

/-- The freshly-constructed entropy wrapper of the scenario (`N = 3`,
`k = 5`). -/
def demoEWrapper0 : ReplayBufferEntropyRewardWrapper where
  base := demoWrapper0
  sample_count := 0
  k := 5
  entropy_stats := RunningMeanAndVar.mk0
  entropy_as_reward_samples := 3

/-- The entropy wrapper after the five `add` calls. -/
def demoEWrapper : ReplayBufferEntropyRewardWrapper :=
  ((((demoEWrapper0.add 1 2 0 0 false).add 2 3 0 0 false).add 3 4 0 0
    false).add 4 5 0 0 false).add 5 6 0 0 false

/-- The square-root function used to instantiate the square-root parameter
`sq` in the concrete scenarios. It agrees with the real square root on every
value it is applied to there: the running variances that arise are `1/4`
(square root `1/2`) and `0` (square root `0`). -/
def sqrtDemo : ℚ → ℚ := fun q => if q = 1 / 4 then 1 / 2 else 0

/-- The entropy wrapper of the scenario with its counter already at the
warmup budget `N = 3`: its next call is call 4, the first steady-state
call. -/
def demoEWrapperSteady : ReplayBufferEntropyRewardWrapper :=
  { demoEWrapper with sample_count := 3 }

/-- The batch the underlying storage of the scenario yields for the draw
`[0, 1]`. -/
def sDemo : ReplayBufferSamples where
  observations := [1, 2]
  actions := [0, 0]
  next_observations := [2, 3]
  dones := [false, false]
  rewards := [0, 0]

/-- The same batch after the base wrapper has relabeled it with `rfInc`. -/
def tDemo : ReplayBufferSamples where
  observations := [1, 2]
  actions := [0, 0]
  next_observations := [2, 3]
  dones := [false, false]
  rewards := [2, 3]

/-- The same batch as the entropy wrapper returns it during warmup:
raw entropies `[1, 2]` (distances to the zero-filled pool), normalized by
their own mean `3/2` and standard deviation `1/2`. -/
def uDemo : ReplayBufferSamples where
  observations := [1, 2]
  actions := [0, 0]
  next_observations := [2, 3]
  dones := [false, false]
  rewards := [-1, 1]

/-! ### Helper lemmas -/

/-- Inverting a successful storage draw: the batch's fields are the drawn
slots of each array. -/
theorem storage_sample_eq (b : ReplayBuffer) (idx : List ℕ)
    (s : ReplayBufferSamples) (hs : b.sample idx = some s) :
    s.observations = idx.map (fun i => b.observations.getD i 0) ∧
    s.actions = idx.map (fun i => b.actions.getD i 0) ∧
    s.next_observations = idx.map (fun i => b.next_observations.getD i 0) ∧
    s.dones = idx.map (fun i => b.dones.getD i false) ∧
    s.rewards = idx.map (fun i => b.rewards.getD i 0) := by
  unfold ReplayBuffer.sample at hs
  split at hs
  · cases hs
  · split at hs
    · injection hs with h
      subst h
      exact ⟨rfl, rfl, rfl, rfl, rfl⟩
    · cases hs

/-- Inverting a successful base-wrapper `sample`: the delegate draw
succeeded, the reward function's output matched the reward field's shape,
and the result is that draw with only the reward field replaced. -/
theorem base_sample_eq (w : ReplayBufferRewardWrapper) (idx : List ℕ)
    (t : ReplayBufferSamples) (ht : w.sample idx = some t) :
    ∃ s, w.replay_buffer.sample idx = some s ∧
      (w.reward_fn s.observations s.actions s.next_observations
        s.dones).length = s.rewards.length ∧
      t = { s with rewards := (w.reward_fn s.observations s.actions
        s.next_observations s.dones) } := by
  unfold ReplayBufferRewardWrapper.sample at ht
  cases hs : w.replay_buffer.sample idx with
  | none => rw [hs] at ht; cases ht
  | some s =>
    rw [hs] at ht
    dsimp only at ht
    split at ht
    · injection ht with h2
      exact ⟨s, rfl, by assumption, h2.symm⟩
    · cases ht

/-- A batch returned by the base wrapper has as many observations as
rewards, one of each per drawn index. -/
theorem base_sample_lengths (w : ReplayBufferRewardWrapper) (idx : List ℕ)
    (t : ReplayBufferSamples) (ht : w.sample idx = some t) :
    t.observations.length = t.rewards.length ∧
    t.observations.length = idx.length := by
  obtain ⟨s, hs, hlen, rfl⟩ := base_sample_eq w idx t ht
  obtain ⟨ho, -, -, -, hr⟩ := storage_sample_eq _ idx s hs
  refine ⟨?_, ?_⟩
  · show s.observations.length = _
    rw [hlen, ho, hr]
    simp
  · rw [show ({ s with rewards := (w.reward_fn s.observations s.actions
      s.next_observations s.dones) } : ReplayBufferSamples).observations
      = s.observations from rfl, ho]
    simp

/-- Folding a second batch into the statistics of a stream extends the
stream: the incremental `update` agrees with the whole-stream statistics. -/
theorem RunningMeanAndVar.ofList_update (l m : List ℚ) :
    (RunningMeanAndVar.ofList l).update m =
      RunningMeanAndVar.ofList (l ++ m) := by
  simp [RunningMeanAndVar.ofList, RunningMeanAndVar.update,
    RunningMeanAndVar.mk0]

/-- The raw entropy batch has one entry per sampled observation. -/
theorem rawEntropies_length (ew : ReplayBufferEntropyRewardWrapper)
    (t : ReplayBufferSamples) :
    (ew.rawEntropies t).length = t.observations.length := by
  simp [ReplayBufferEntropyRewardWrapper.rawEntropies, compute_state_entropy]

/-- Reduction of the entropy wrapper's `sample` when the delegate raises:
the incremented counter is kept, no batch is returned. -/
theorem esample_fail_eq (ew : ReplayBufferEntropyRewardWrapper) (sq : ℚ → ℚ)
    (idx : List ℕ) (ht : ew.base.sample idx = none) :
    ew.sample sq idx =
      ({ ew with sample_count := ew.sample_count + 1 }, none) := by
  simp only [ReplayBufferEntropyRewardWrapper.sample, ht]

/-- Reduction of the entropy wrapper's `sample` in the steady state
(counter past the warmup budget): the base-labeled result is passed
through unchanged. -/
theorem esample_steady_eq (ew : ReplayBufferEntropyRewardWrapper)
    (sq : ℚ → ℚ) (idx : List ℕ)
    (hw : ew.sample_count + 1 > ew.entropy_as_reward_samples) :
    ew.sample sq idx =
      ({ ew with sample_count := ew.sample_count + 1 },
        ew.base.sample idx) := by
  cases ht : ew.base.sample idx with
  | none => simp only [ReplayBufferEntropyRewardWrapper.sample, ht]
  | some t =>
    simp only [ReplayBufferEntropyRewardWrapper.sample, ht]
    rw [if_pos hw]

/-- Reduction of the entropy wrapper's `sample` during warmup: the
accumulator is updated with the raw entropies of the drawn batch and the
batch's reward field is replaced by their normalization. -/
theorem esample_warmup_eq (ew : ReplayBufferEntropyRewardWrapper)
    (sq : ℚ → ℚ) (idx : List ℕ) (t : ReplayBufferSamples)
    (hw : ew.sample_count + 1 ≤ ew.entropy_as_reward_samples)
    (ht : ew.base.sample idx = some t) :
    ew.sample sq idx =
      ({ ew with
          sample_count := ew.sample_count + 1
          entropy_stats := ew.entropy_stats.update (ew.rawEntropies t) },
        some { t with rewards := (ReplayBufferEntropyRewardWrapper.normalizeWith
          sq (ew.entropy_stats.update (ew.rawEntropies t))
          (ew.rawEntropies t)) }) := by
  have h1 := base_sample_lengths ew.base idx t ht
  have hc : (ReplayBufferEntropyRewardWrapper.normalizeWith sq
      (ew.entropy_stats.update (ew.rawEntropies t))
      (ew.rawEntropies t)).length = t.rewards.length := by
    simpa [ReplayBufferEntropyRewardWrapper.normalizeWith,
      rawEntropies_length] using h1.1
  simp only [ReplayBufferEntropyRewardWrapper.sample, ht]
  rw [if_neg (by omega), if_pos hc]

/-- Every branch of the entropy wrapper's `sample` — delegate failure,
steady state, warmup — increments the sample counter by one and leaves the
warmup budget, `k` and the base component unchanged. -/
theorem esample_state_fields (ew : ReplayBufferEntropyRewardWrapper)
    (sq : ℚ → ℚ) (idx : List ℕ) :
    (ew.sample sq idx).1.sample_count = ew.sample_count + 1 ∧
    (ew.sample sq idx).1.entropy_as_reward_samples =
      ew.entropy_as_reward_samples ∧
    (ew.sample sq idx).1.k = ew.k ∧
    (ew.sample sq idx).1.base = ew.base := by
  cases ht : ew.base.sample idx with
  | none =>
    rw [esample_fail_eq ew sq idx ht]
    exact ⟨rfl, rfl, rfl, rfl⟩
  | some t =>
    by_cases hw : ew.sample_count + 1 > ew.entropy_as_reward_samples
    · rw [esample_steady_eq ew sq idx hw]
      exact ⟨rfl, rfl, rfl, rfl⟩
    · push_neg at hw
      rw [esample_warmup_eq ew sq idx t hw ht]
      exact ⟨rfl, rfl, rfl, rfl⟩

/-! ### Claim theorems -/

/-- C5: for every value, setting the wrapper's `pos` (respectively `full`)
and reading it back returns that value; every read returns the underlying
storage's current value; and writes through the wrapper update the
underlying storage's field. -/
theorem pos_full_proxy_roundtrip (w : ReplayBufferRewardWrapper) (p : ℕ)
    (f : Bool) :
    (w.setPos p).pos = p ∧
    (w.setFull f).full = f ∧
    w.pos = w.replay_buffer.pos ∧
    w.full = w.replay_buffer.full ∧
    (w.setPos p).replay_buffer.pos = p ∧
    (w.setFull f).replay_buffer.full = f :=
  ⟨rfl, rfl, rfl, rfl, rfl, rfl⟩

/-- C8: every direct invocation of `_get_samples` on the wrapper fails with
the explicit `NotImplementedError` message and never returns data. -/
theorem get_samples_not_implemented (w : ReplayBufferRewardWrapper) :
    w._get_samples = Except.error
      "_get_samples() is intentionally not implemented.This method should not be called." ∧
    ∀ s, w._get_samples ≠ Except.ok s :=
  ⟨rfl, fun _ h => Except.noConfusion h⟩

/-- C7: construction fails immediately with an assertion-style error — so no
wrapper value exists on which a transition could be added — whenever the
observation space is dictionary-typed or the supplied storage class is
unsupported; otherwise construction succeeds. Covers the base wrapper and
the entropy wrapper (whose constructor runs the same assertions). -/
theorem construction_fail_fast (bs : ℕ) (os : Space) (c : BufferClass)
    (rf : RewardFn) (N k : ℕ) :
    ((os.isDict = true ∨ c ≠ BufferClass.replayBuffer) →
      (∃ e, ReplayBufferRewardWrapper.init bs os c rf = Except.error e) ∧
      (∃ e, ReplayBufferEntropyRewardWrapper.init bs os c rf N k =
        Except.error e)) ∧
    (os.isDict = false → c = BufferClass.replayBuffer →
      (∃ w, ReplayBufferRewardWrapper.init bs os c rf = Except.ok w) ∧
      (∃ w, ReplayBufferEntropyRewardWrapper.init bs os c rf N k =
        Except.ok w)) := by
  cases os <;> cases c <;>
    simp [ReplayBufferRewardWrapper.init,
      ReplayBufferEntropyRewardWrapper.init, Space.isDict]

/-- Witness for C7: with a dictionary observation space construction fails;
with a flat space and the supported class it succeeds. -/
theorem construction_fail_fast_witness :
    ((∃ e, ReplayBufferRewardWrapper.init 10 Space.dict
      BufferClass.replayBuffer rfInc = Except.error e) ∧
    (∃ e, ReplayBufferEntropyRewardWrapper.init 10 Space.dict
      BufferClass.replayBuffer rfInc 3 5 = Except.error e)) ∧
    ((∃ w, ReplayBufferRewardWrapper.init 10 Space.box
      BufferClass.replayBuffer rfInc = Except.ok w) ∧
    (∃ w, ReplayBufferEntropyRewardWrapper.init 10 Space.box
      BufferClass.replayBuffer rfInc 3 5 = Except.ok w)) :=
  ⟨(construction_fail_fast 10 Space.dict BufferClass.replayBuffer rfInc
      3 5).1 (Or.inl rfl),
    (construction_fail_fast 10 Space.box BufferClass.replayBuffer rfInc
      3 5).2 rfl rfl⟩

/-- C9: the constructor's check is a class-identity test
(`replay_buffer_class is ReplayBuffer`), so every class other than
`ReplayBuffer` itself — in particular a strict subclass, which does provide
the storage interface — is rejected with an assertion error. -/
theorem class_identity_rejects_subclasses (bs : ℕ) (os : Space)
    (rf : RewardFn) (c : BufferClass)
    (h : c ≠ BufferClass.replayBuffer) :
    (∃ e, ReplayBufferRewardWrapper.init bs os c rf = Except.error e) ∧
    BufferClass.providesStorageInterface
      BufferClass.strictSubclassOfReplayBuffer = true ∧
    (∃ e, ReplayBufferRewardWrapper.init bs os
      BufferClass.strictSubclassOfReplayBuffer rf = Except.error e) := by
  refine ⟨?_, rfl, ?_⟩
  · simp [ReplayBufferRewardWrapper.init, h]
  · simp [ReplayBufferRewardWrapper.init]

/-- C3: for every call to `ReplayBufferRewardWrapper.sample`, the reward
field of the returned batch equals `reward_fn` applied to the drawn batch's
`(state, action, next_state, done)` fields, with the shape (element count)
of the delegate batch's original reward field. -/
theorem sample_relabels_rewards (w : ReplayBufferRewardWrapper)
    (idx : List ℕ) (s t : ReplayBufferSamples)
    (hs : w.replay_buffer.sample idx = some s)
    (ht : w.sample idx = some t) :
    t.rewards = w.reward_fn s.observations s.actions s.next_observations
      s.dones ∧
    t.rewards.length = s.rewards.length := by
  obtain ⟨s', hs', hlen, rfl⟩ := base_sample_eq w idx t ht
  rw [hs'] at hs
  injection hs with h
  subst h
  exact ⟨rfl, hlen⟩

/-- Witness for C3: in the concrete scenario, the batch drawn at indices
`[0, 1]` comes back with rewards `rfInc(state) = state + 1 = [2, 3]`. -/
theorem sample_relabels_rewards_witness :
    tDemo.rewards = demoWrapper.reward_fn sDemo.observations sDemo.actions
      sDemo.next_observations sDemo.dones ∧
    tDemo.rewards.length = sDemo.rewards.length :=
  sample_relabels_rewards demoWrapper [0, 1] sDemo tDemo (by decide)
    (by norm_num [demoWrapper, demoWrapper0, rfInc,
      ReplayBufferRewardWrapper.sample, ReplayBufferRewardWrapper.add,
      ReplayBuffer.add, ReplayBuffer.sample, ReplayBuffer.mk0,
      ReplayBuffer.size, tDemo])

/-- C4: for every call to `sample` on either wrapper, the returned batch's
state, action, next-state and done fields are identical to those of the
batch the underlying storage's own `sample` returned; only the reward field
is replaced. -/
theorem sample_preserves_other_fields (sq : ℚ → ℚ) (idx : List ℕ)
    (s : ReplayBufferSamples) :
    (∀ (w : ReplayBufferRewardWrapper) (t : ReplayBufferSamples),
      w.replay_buffer.sample idx = some s → w.sample idx = some t →
      t.observations = s.observations ∧ t.actions = s.actions ∧
      t.next_observations = s.next_observations ∧ t.dones = s.dones) ∧
    (∀ (ew : ReplayBufferEntropyRewardWrapper) (u : ReplayBufferSamples),
      ew.base.replay_buffer.sample idx = some s →
      (ew.sample sq idx).2 = some u →
      u.observations = s.observations ∧ u.actions = s.actions ∧
      u.next_observations = s.next_observations ∧ u.dones = s.dones) := by
  have hbase : ∀ (w : ReplayBufferRewardWrapper) (t : ReplayBufferSamples),
      w.replay_buffer.sample idx = some s → w.sample idx = some t →
      t.observations = s.observations ∧ t.actions = s.actions ∧
      t.next_observations = s.next_observations ∧ t.dones = s.dones := by
    intro w t hs ht
    obtain ⟨s', hs', hlen, rfl⟩ := base_sample_eq w idx t ht
    rw [hs'] at hs
    injection hs with h
    subst h
    exact ⟨rfl, rfl, rfl, rfl⟩
  refine ⟨hbase, ?_⟩
  intro ew u hs hu
  cases ht : ew.base.sample idx with
  | none =>
    rw [esample_fail_eq ew sq idx ht] at hu
    cases hu
  | some t =>
    by_cases hw : ew.sample_count + 1 > ew.entropy_as_reward_samples
    · rw [esample_steady_eq ew sq idx hw] at hu
      dsimp only at hu
      rw [ht] at hu
      injection hu with h
      subst h
      exact hbase ew.base t hs ht
    · push_neg at hw
      rw [esample_warmup_eq ew sq idx t hw ht] at hu
      dsimp only at hu
      injection hu with h
      subst h
      exact hbase ew.base t hs ht

/-- Witness for C4: in the concrete scenario both wrappers return, for the
draw `[0, 1]`, exactly the storage batch's observations, actions,
next observations and dones. -/
theorem sample_preserves_other_fields_witness :
    (tDemo.observations = sDemo.observations ∧
      tDemo.actions = sDemo.actions ∧
      tDemo.next_observations = sDemo.next_observations ∧
      tDemo.dones = sDemo.dones) ∧
    ((demoEWrapper.sample sqrtDemo [0, 1]).2 = some uDemo ∧
      uDemo.observations = sDemo.observations ∧
      uDemo.actions = sDemo.actions ∧
      uDemo.next_observations = sDemo.next_observations ∧
      uDemo.dones = sDemo.dones) :=
  ⟨(sample_preserves_other_fields sqrtDemo [0, 1] sDemo).1 demoWrapper tDemo
      (by decide)
      (by norm_num [demoWrapper, demoWrapper0, rfInc,
        ReplayBufferRewardWrapper.sample, ReplayBufferRewardWrapper.add,
        ReplayBuffer.add, ReplayBuffer.sample, ReplayBuffer.mk0,
        ReplayBuffer.size, tDemo]),
    by norm_num [demoEWrapper, demoEWrapper0, demoWrapper0, rfInc, sqrtDemo,
      ReplayBufferEntropyRewardWrapper.sample,
      ReplayBufferEntropyRewardWrapper.add,
      ReplayBufferEntropyRewardWrapper.rawEntropies,
      ReplayBufferEntropyRewardWrapper.entropyPool,
      ReplayBufferEntropyRewardWrapper.normalizeWith,
      compute_state_entropy, kthNearestNeighborDist,
      ReplayBufferRewardWrapper.sample, ReplayBufferRewardWrapper.add,
      ReplayBufferRewardWrapper.full, ReplayBufferRewardWrapper.pos,
      ReplayBuffer.add, ReplayBuffer.sample, ReplayBuffer.mk0,
      ReplayBuffer.size, RunningMeanAndVar.update, RunningMeanAndVar.mean,
      RunningMeanAndVar.var, RunningMeanAndVar.mk0, List.insertionSort,
      List.orderedInsert, uDemo],
    (sample_preserves_other_fields sqrtDemo [0, 1] sDemo).2 demoEWrapper
      uDemo (by decide)
      (by norm_num [demoEWrapper, demoEWrapper0, demoWrapper0, rfInc,
        sqrtDemo, ReplayBufferEntropyRewardWrapper.sample,
        ReplayBufferEntropyRewardWrapper.add,
        ReplayBufferEntropyRewardWrapper.rawEntropies,
        ReplayBufferEntropyRewardWrapper.entropyPool,
        ReplayBufferEntropyRewardWrapper.normalizeWith,
        compute_state_entropy, kthNearestNeighborDist,
        ReplayBufferRewardWrapper.sample, ReplayBufferRewardWrapper.add,
        ReplayBufferRewardWrapper.full, ReplayBufferRewardWrapper.pos,
        ReplayBuffer.add, ReplayBuffer.sample, ReplayBuffer.mk0,
        ReplayBuffer.size, RunningMeanAndVar.update, RunningMeanAndVar.mean,
        RunningMeanAndVar.var, RunningMeanAndVar.mk0, List.insertionSort,
        List.orderedInsert, uDemo])⟩

/-- C2: every call to the entropy wrapper's `sample` increments the sample
counter by exactly one; calls 1..N (counter after increment at most the
warmup budget) return the entropy-derived reward batch, calls past N return
the base delegating buffer's reward batch unchanged, and the transition is
one-directional: once the counter has passed the budget it only grows, so
the call stays steady. -/
theorem warmup_steady_boundary (sq : ℚ → ℚ)
    (ew : ReplayBufferEntropyRewardWrapper) (idx : List ℕ) :
    (ew.sample sq idx).1.sample_count = ew.sample_count + 1 ∧
    (ew.sample_count + 1 > ew.entropy_as_reward_samples →
      (ew.sample sq idx).2 = ew.base.sample idx) ∧
    (ew.sample_count + 1 ≤ ew.entropy_as_reward_samples →
      ∀ t, ew.base.sample idx = some t →
        (ew.sample sq idx).2 = some { t with rewards :=
          (ReplayBufferEntropyRewardWrapper.normalizeWith sq
            (ew.entropy_stats.update (ew.rawEntropies t))
            (ew.rawEntropies t)) }) ∧
    (ew.entropy_as_reward_samples < ew.sample_count →
      ew.entropy_as_reward_samples < (ew.sample sq idx).1.sample_count ∧
      (ew.sample sq idx).2 = ew.base.sample idx) := by
  refine ⟨(esample_state_fields ew sq idx).1, ?_, ?_, ?_⟩
  · intro hw
    rw [esample_steady_eq ew sq idx hw]
  · intro hw t ht
    rw [esample_warmup_eq ew sq idx t hw ht]
  · intro hpast
    have hw : ew.sample_count + 1 > ew.entropy_as_reward_samples := by omega
    refine ⟨?_, ?_⟩
    · rw [(esample_state_fields ew sq idx).1]
      omega
    · rw [esample_steady_eq ew sq idx hw]

/-- Witness for C2 (budget `N = 3`): call 4 (counter at 3) returns the
base-labeled batch unchanged, call 1 (counter at 0) returns the
entropy-derived batch, and the counter advances by one. -/
theorem warmup_steady_boundary_witness :
    (demoEWrapperSteady.sample sqrtDemo [0, 1]).2 =
      demoEWrapperSteady.base.sample [0, 1] ∧
    (demoEWrapper.sample sqrtDemo [0, 1]).2 = some { tDemo with rewards :=
      (ReplayBufferEntropyRewardWrapper.normalizeWith sqrtDemo
        (demoEWrapper.entropy_stats.update (demoEWrapper.rawEntropies tDemo))
        (demoEWrapper.rawEntropies tDemo)) } ∧
    (demoEWrapper.sample sqrtDemo [0, 1]).1.sample_count =
      demoEWrapper.sample_count + 1 :=
  ⟨(warmup_steady_boundary sqrtDemo demoEWrapperSteady [0, 1]).2.1
      (by decide),
    (warmup_steady_boundary sqrtDemo demoEWrapper [0, 1]).2.2.1 (by decide)
      tDemo
      (by norm_num [demoEWrapper, demoEWrapper0, demoWrapper0, rfInc,
        ReplayBufferEntropyRewardWrapper.add,
        ReplayBufferRewardWrapper.sample, ReplayBufferRewardWrapper.add,
        ReplayBuffer.add, ReplayBuffer.sample, ReplayBuffer.mk0,
        ReplayBuffer.size, tDemo]),
    (warmup_steady_boundary sqrtDemo demoEWrapper [0, 1]).1⟩

/-- C10: the sample counter is incremented before delegating, so it
advances by one on every call, including calls where the underlying
storage's `sample` raises and no batch is returned — a failed call consumes
one unit of the unchanged warmup budget. -/
theorem sample_count_advances_even_on_failure (sq : ℚ → ℚ)
    (ew : ReplayBufferEntropyRewardWrapper) (idx : List ℕ) :
    (ew.sample sq idx).1.sample_count = ew.sample_count + 1 ∧
    ((ew.sample sq idx).2 = none →
      (ew.sample sq idx).1.sample_count = ew.sample_count + 1 ∧
      (ew.sample sq idx).1.entropy_as_reward_samples =
        ew.entropy_as_reward_samples) :=
  ⟨(esample_state_fields ew sq idx).1,
    fun _ => ⟨(esample_state_fields ew sq idx).1,
      (esample_state_fields ew sq idx).2.1⟩⟩

/-- Witness for C10: sampling the freshly-constructed wrapper (empty
buffer) raises in the delegate, yet the counter has advanced to 1 and the
budget is unchanged. -/
theorem sample_count_advances_even_on_failure_witness :
    (demoEWrapper0.sample sqrtDemo [0]).2 = none ∧
    (demoEWrapper0.sample sqrtDemo [0]).1.sample_count =
      demoEWrapper0.sample_count + 1 ∧
    (demoEWrapper0.sample sqrtDemo [0]).1.entropy_as_reward_samples =
      demoEWrapper0.entropy_as_reward_samples :=
  ⟨by decide,
    (sample_count_advances_even_on_failure sqrtDemo demoEWrapper0 [0]).2
      (by decide)⟩

/-- C6 (amended): on every warmup-phase call the accumulator is updated
with the raw entropy batch first — after the update it holds the statistics
of the whole entropy stream including this batch — and the returned reward
is the raw entropy minus the post-update mean, divided by the post-update
standard deviation `sq var`; no epsilon or guard is applied to the
divisor. -/
theorem warmup_normalizes_by_post_update_stats (sq : ℚ → ℚ)
    (ew : ReplayBufferEntropyRewardWrapper) (idx : List ℕ)
    (t : ReplayBufferSamples) (l : List ℚ)
    (hw : ew.sample_count + 1 ≤ ew.entropy_as_reward_samples)
    (ht : ew.base.sample idx = some t)
    (hl : ew.entropy_stats = RunningMeanAndVar.ofList l) :
    (ew.sample sq idx).1.entropy_stats =
      RunningMeanAndVar.ofList (l ++ ew.rawEntropies t) ∧
    (ew.sample sq idx).2 = some { t with rewards :=
      ((ew.rawEntropies t).map (fun e =>
        (e - (RunningMeanAndVar.ofList (l ++ ew.rawEntropies t)).mean) /
          sq ((RunningMeanAndVar.ofList (l ++ ew.rawEntropies t)).var))) } := by
  rw [esample_warmup_eq ew sq idx t hw ht, hl,
    RunningMeanAndVar.ofList_update]
  exact ⟨rfl, rfl⟩

/-- Witness for C6 (amended): the first warmup call of the scenario, on the
draw `[0, 1]`, updates the empty stream with the raw entropies and
normalizes by the post-update statistics. -/
theorem warmup_normalizes_by_post_update_stats_witness :
    demoEWrapper.sample_count + 1 ≤ demoEWrapper.entropy_as_reward_samples ∧
    ((demoEWrapper.sample sqrtDemo [0, 1]).1.entropy_stats =
      RunningMeanAndVar.ofList ([] ++ demoEWrapper.rawEntropies tDemo) ∧
    (demoEWrapper.sample sqrtDemo [0, 1]).2 = some { tDemo with rewards :=
      ((demoEWrapper.rawEntropies tDemo).map (fun e =>
        (e - (RunningMeanAndVar.ofList
          ([] ++ demoEWrapper.rawEntropies tDemo)).mean) /
          sqrtDemo ((RunningMeanAndVar.ofList
            ([] ++ demoEWrapper.rawEntropies tDemo)).var))) }) :=
  ⟨by decide,
    warmup_normalizes_by_post_update_stats sqrtDemo demoEWrapper [0, 1]
      tDemo [] (by decide)
      (by norm_num [demoEWrapper, demoEWrapper0, demoWrapper0, rfInc,
        ReplayBufferEntropyRewardWrapper.add,
        ReplayBufferRewardWrapper.sample, ReplayBufferRewardWrapper.add,
        ReplayBuffer.add, ReplayBuffer.sample, ReplayBuffer.mk0,
        ReplayBuffer.size, tDemo])
      (by norm_num [demoEWrapper, demoEWrapper0,
        ReplayBufferEntropyRewardWrapper.add, RunningMeanAndVar.ofList,
        RunningMeanAndVar.update, RunningMeanAndVar.mk0])⟩

/-- Counterexample for C6 as stated: a warmup call with a batch of one
index (the first ever update of the accumulator) makes the post-update
variance exactly 0, and the code divides by the standard deviation `sq 0
= 0` with no epsilon or guard. In this rational model division by zero
returns 0, so the returned reward is `[0]`; in the IEEE arithmetic of the
code the same division is `0.0 / 0.0 = NaN`. -/
theorem warmup_zero_std_no_guard :
    demoEWrapper.sample_count + 1 ≤ demoEWrapper.entropy_as_reward_samples ∧
    (demoEWrapper.sample sqrtDemo [0]).1.entropy_stats.var = 0 ∧
    sqrtDemo ((demoEWrapper.sample sqrtDemo [0]).1.entropy_stats.var) = 0 ∧
    (demoEWrapper.sample sqrtDemo [0]).2 = some
      { observations := [1], actions := [0], next_observations := [2],
        dones := [false], rewards := [0] } := by
  refine ⟨by decide, ?_, ?_, ?_⟩ <;>
    norm_num [demoEWrapper, demoEWrapper0, demoWrapper0, rfInc, sqrtDemo,
      ReplayBufferEntropyRewardWrapper.sample,
      ReplayBufferEntropyRewardWrapper.add,
      ReplayBufferEntropyRewardWrapper.rawEntropies,
      ReplayBufferEntropyRewardWrapper.entropyPool,
      ReplayBufferEntropyRewardWrapper.normalizeWith,
      compute_state_entropy, kthNearestNeighborDist,
      ReplayBufferRewardWrapper.sample, ReplayBufferRewardWrapper.add,
      ReplayBufferRewardWrapper.full, ReplayBufferRewardWrapper.pos,
      ReplayBuffer.add, ReplayBuffer.sample, ReplayBuffer.mk0,
      ReplayBuffer.size, RunningMeanAndVar.update, RunningMeanAndVar.mean,
      RunningMeanAndVar.var, RunningMeanAndVar.mk0, List.insertionSort,
      List.orderedInsert]

/-- C1 (code bug): during warmup the k-NN pool is `self.observations`
sliced by `self.pos` — the wrapper's OWN inherited observation array, which
`add` never writes, so after five adds of observations `1..5` the pool is
five zeros, not the delegate storage's occupied observations `[1..5]`; the
raw entropies over the drawn batch `[1, 2]` are `[1, 2]` (distances to
zero) instead of the `[4, 3]` the occupied pool would give. -/
theorem entropy_pool_is_wrappers_own_zero_array :
    demoEWrapper.entropyPool = List.replicate 5 (0 : ℚ) ∧
    demoEWrapper.base.replay_buffer.occupiedObservations = [1, 2, 3, 4, 5] ∧
    demoEWrapper.entropyPool ≠
      demoEWrapper.base.replay_buffer.occupiedObservations ∧
    demoEWrapper.rawEntropies tDemo = [1, 2] ∧
    compute_state_entropy tDemo.observations
      demoEWrapper.base.replay_buffer.occupiedObservations
      demoEWrapper.k = [4, 3] ∧
    demoEWrapper.rawEntropies tDemo ≠
      compute_state_entropy tDemo.observations
        demoEWrapper.base.replay_buffer.occupiedObservations
        demoEWrapper.k := by
  have h1 : demoEWrapper.rawEntropies tDemo = [1, 2] := by
    norm_num [demoEWrapper, demoEWrapper0, demoWrapper0,
      ReplayBufferEntropyRewardWrapper.add,
      ReplayBufferEntropyRewardWrapper.rawEntropies,
      ReplayBufferEntropyRewardWrapper.entropyPool,
      ReplayBufferRewardWrapper.add, ReplayBufferRewardWrapper.full,
      ReplayBufferRewardWrapper.pos, ReplayBuffer.add, ReplayBuffer.mk0,
      compute_state_entropy, kthNearestNeighborDist, List.insertionSort,
      List.orderedInsert, tDemo]
  have h2 : compute_state_entropy tDemo.observations
      demoEWrapper.base.replay_buffer.occupiedObservations
      demoEWrapper.k = [4, 3] := by
    norm_num [demoEWrapper, demoEWrapper0, demoWrapper0,
      ReplayBufferEntropyRewardWrapper.add,
      ReplayBufferRewardWrapper.add, ReplayBuffer.add, ReplayBuffer.mk0,
      ReplayBuffer.occupiedObservations, compute_state_entropy,
      kthNearestNeighborDist, List.insertionSort, List.orderedInsert, tDemo]
  refine ⟨by decide, by decide, by decide, h1, h2, ?_⟩
  rw [h1, h2]
  decide

/-- Witness for C9: a strict subclass of `ReplayBuffer` is rejected even
though it provides the storage interface. -/
theorem class_identity_rejects_subclasses_witness :
    (∃ e, ReplayBufferRewardWrapper.init 10 Space.box
      BufferClass.strictSubclassOfReplayBuffer rfInc = Except.error e) ∧
    BufferClass.providesStorageInterface
      BufferClass.strictSubclassOfReplayBuffer = true ∧
    (∃ e, ReplayBufferRewardWrapper.init 10 Space.box
      BufferClass.strictSubclassOfReplayBuffer rfInc = Except.error e) :=
  class_identity_rejects_subclasses 10 Space.box rfInc
    BufferClass.strictSubclassOfReplayBuffer (by decide)

end ReplayBufferSpec
